import Mathlib

/-!
Verification of the mas-rico-internet auction settlement core.

Shallow embedding of the three relevant handlers:

- the Bid Quoter, `src/netlify/functions/create-payment-intent.js`, first
  handler (request validation, `requiredToPay`, `willBecomeKing`, payment
  intent metadata);
- the Settlement Engine transaction of the webhook shipped in the same
  file (the `STEP 1 / STEP 2 / STEP 3` transaction, lines 217-339), here
  `settleTransaction`;
- the Settlement Engine of `src/netlify/functions/webhook.js`
  (lines 60-211), here `webhookSettle`.

Monetary amounts are modelled as rationals (the source uses JS numbers;
its own design notes flag floating point as an open question, so the
numeric model is exact arithmetic).  Timestamps and durations are
integers (milliseconds); both `Date.now()` and the commit-time server
timestamp of one settlement are modelled as the single parameter `now`.
Firestore collections are association lists keyed by document id, and a
Firestore transaction is a function from the pre-transaction store
snapshot to the post-commit store (all reads see the snapshot, exactly
as the source arranges by doing all reads first).  Optional JS fields
read with a `|| 0` default are modelled as total fields whose absent
value is the default.
-/

/-- Constant STRIPE_MINIMUM_USD from create-payment-intent.js line 21. -/
def STRIPE_MINIMUM_USD : ℚ := 1/2

/-- Fixed minimal overbid: the literal 0.01 of create-payment-intent.js
line 90 (`requiredTotal = currentKingData.amount + 0.01`), called
EPSILON by the specification. -/
def EPSILON : ℚ := 1/100

/-- Bidder document of the `users` collection, as read and written by the
settlement transaction of create-payment-intent.js.  The nested JS
object `stats` (read with `?.` and `|| 0` defaults) is flattened into
the three stat fields. -/
structure User where
  username : String
  totalInvested : ℚ
  lastPaymentAmount : Option ℚ
  lastPaymentDate : Option Int
  timesAsKing : Nat
  totalTimeAsKing : Int
  longestReign : Int
deriving DecidableEq

/-- The singleton `current/king` document (the Throne record). -/
structure KingData where
  userId : String
  username : String
  amount : ℚ
  timestamp : Option Int
  crownedAt : Option Int
  paymentIntentId : Option String
deriving DecidableEq

/-- Payment intent metadata produced by the Bid Quoter and echoed back in
the confirmation event (create-payment-intent.js lines 115-125).  The
source stores each field as a string and parses it back with
`parseFloat`; the round trip is modelled as the identity on typed
values. -/
structure PaymentMetadata where
  userId : String
  username : String
  amountPaid : ℚ
  previousInvestment : ℚ
  newTotalInvestment : ℚ
  willBecomeKing : Bool
  currentKingAmount : ℚ
deriving DecidableEq

/-- Document appended to the `paymentHistory` collection by the
settlement transaction (create-payment-intent.js lines 286-296). -/
structure PaymentHistoryEvent where
  userId : String
  username : String
  amountPaid : ℚ
  previousTotal : ℚ
  newTotal : ℚ
  timestamp : Int
  paymentIntentId : String
  willBecomeKing : Bool
deriving DecidableEq

/-- Store state touched by the settlement transaction of
create-payment-intent.js: the `users` collection, the singleton
`current/king` document, and the append-only `paymentHistory`
collection (auto-generated ids modelled by list position). -/
structure Store where
  users : List (String × User)
  king : Option KingData
  paymentHistory : List PaymentHistoryEvent
deriving DecidableEq

/-- Firestore document lookup in a collection keyed by document id. -/
def lookupDoc {α : Type} : List (String × α) → String → Option α
  | [], _ => none
  | (k, u) :: rest, key => if k = key then some u else lookupDoc rest key

/-- Firestore `transaction.update` on one document of a collection. -/
def updateDoc {α : Type} (us : List (String × α)) (key : String) (f : α → α) :
    List (String × α) :=
  match us with
  | [] => []
  | (k, u) :: rest => if k = key then (k, f u) :: rest else (k, u) :: updateDoc rest key f

/-- The paymentHistory document written by the settlement transaction
(create-payment-intent.js lines 286-296): every field is copied from the
event metadata and the payment intent id. -/
def mkPaymentHistoryEvent (now : Int) (pid : String) (md : PaymentMetadata) :
    PaymentHistoryEvent :=
  { userId := md.userId
    username := md.username
    amountPaid := md.amountPaid
    previousTotal := md.previousInvestment
    newTotal := md.newTotalInvestment
    timestamp := now
    paymentIntentId := pid
    willBecomeKing := md.willBecomeKing }

/-- Read phase for the previous king (create-payment-intent.js lines
236-256): when the `current/king` document exists, its `userId` is
truthy, and it differs from the paying user, the previous king user
document is also read; the pair is available to the write phase only
when that read found the document. -/
def prevKingInfo (md : PaymentMetadata) (s : Store) : Option (KingData × User) :=
  match s.king with
  | some pk =>
    if pk.userId ≠ "" ∧ pk.userId ≠ md.userId then
      (lookupDoc s.users pk.userId).map fun u => (pk, u)
    else none
  | none => none

/-- Write phase of the settlement transaction of create-payment-intent.js
(lines 260-339), applied to the snapshot `s` after the paying user
document was read as `userData`.  Note that `newTotalInvestment` and
`willBecomeKing` are taken from the event metadata (lines 264-266), and
the previous king statistics are written from the values read in the
read phase (lines 303-315). -/
def settleBody (now : Int) (pid : String) (md : PaymentMetadata) (s : Store)
    (userData : User) : Store :=
  let users1 := updateDoc s.users md.userId fun u =>
    { u with totalInvested := md.newTotalInvestment
             lastPaymentAmount := some md.amountPaid
             lastPaymentDate := some now }
  let hist1 := s.paymentHistory ++ [mkPaymentHistoryEvent now pid md]
  if md.willBecomeKing then
    let users2 :=
      match prevKingInfo md s with
      | some (pk, pkUser) =>
        let reignDuration := now - (pk.crownedAt.getD now)
        updateDoc users1 pk.userId fun u =>
          { u with totalTimeAsKing := pkUser.totalTimeAsKing + reignDuration
                   longestReign := max pkUser.longestReign reignDuration }
      | none => users1
    let users3 := updateDoc users2 md.userId fun u =>
      { u with timesAsKing := userData.timesAsKing + 1 }
    { users := users3
      king := some
        { userId := md.userId
          username := md.username
          amount := md.newTotalInvestment
          timestamp := some now
          crownedAt := some now
          paymentIntentId := some pid }
      paymentHistory := hist1 }
  else
    { users := users1, king := s.king, paymentHistory := hist1 }

/-- Settlement transaction of the webhook in create-payment-intent.js
(lines 217-339): read the paying user document (throwing when absent,
which aborts the transaction with no mutation), then run the write
phase. -/
def settleTransaction (now : Int) (pid : String) (md : PaymentMetadata) (s : Store) :
    Except String Store :=
  match lookupDoc s.users md.userId with
  | none => .error ("User not found: " ++ md.userId)
  | some userData => .ok (settleBody now pid md s userData)

/-- Bidder document as used by webhook.js (`lastPayment` nested object
flattened; `stats` flattened as for `User`, with the extra
`lastCrowned` stat webhook.js writes). -/
structure WUser where
  username : String
  totalInvested : ℚ
  lastPaymentAmount : Option ℚ
  lastPaymentDate : Option Int
  lastPaymentIntentId : Option String
  timesAsKing : Nat
  totalTimeAsKing : Int
  longestReign : Int
  lastCrowned : Option Int
deriving DecidableEq

/-- Payment intent metadata as parsed by webhook.js (lines 64-70). -/
structure WMetadata where
  userId : String
  username : String
  paymentAmount : ℚ
  previousInvestment : ℚ
  newTotalInvestment : ℚ
  previousKingAmount : ℚ
deriving DecidableEq

/-- Document appended to the `history` collection by webhook.js: either a
dethrone record (lines 143-164) or a plain payment record (lines
168-184).  Free-text message fields are omitted; every numeric and id
field is kept. -/
inductive WHistoryEvent where
  | dethrone (newKingUserId newKingUsername : String) (newKingAmount : ℚ)
      (prevKingUserId prevKingUsername : String) (prevKingAmount : ℚ)
      (paymentAmount previousInvestment totalInvestment : ℚ)
      (timestamp : Int) (paymentIntentId : String)
  | payment (userId username : String)
      (paymentAmount previousInvestment totalInvestment : ℚ)
      (timestamp : Int) (paymentIntentId : String)
deriving DecidableEq

/-- Store state touched by webhook.js. -/
structure WStore where
  users : List (String × WUser)
  king : Option KingData
  history : List WHistoryEvent
deriving DecidableEq

/-- Fallback king data used by webhook.js when the `current/king`
document is absent (lines 108-112): ReyInicial with amount 10.00. -/
def defaultKingData : KingData :=
  { userId := "default"
    username := "ReyInicial"
    amount := 10
    timestamp := none
    crownedAt := none
    paymentIntentId := none }

/-- Throne amount the webhook.js settlement decides against: the freshly
read `current/king` amount, or the ReyInicial default 10.00 when the
document is absent. -/
def wThroneAmount (t : WStore) : ℚ :=
  (t.king.getD defaultKingData).amount

/-- Body of the webhook.js settlement transaction (lines 81-188), applied
to the snapshot `t` after the paying user document was read as
`userData`: update the user total to the metadata `newTotalInvestment`,
then decide `shouldBecomeKing = newTotalInvestment >
currentKingData.amount` against the freshly read (or default) king and
branch into the dethrone or plain-payment write set. -/
def wSettleBody (now : Int) (pid : String) (md : WMetadata) (t : WStore)
    (userData : WUser) : WStore :=
  let users1 := updateDoc t.users md.userId fun u =>
    { u with totalInvested := md.newTotalInvestment
             lastPaymentAmount := some md.paymentAmount
             lastPaymentDate := some now
             lastPaymentIntentId := some pid }
  let currentKingData := t.king.getD defaultKingData
  if md.newTotalInvestment > currentKingData.amount then
    let users2 := updateDoc users1 md.userId fun u =>
      { u with timesAsKing := userData.timesAsKing + 1
               totalTimeAsKing := userData.totalTimeAsKing
               longestReign := userData.longestReign
               lastCrowned := some now }
    { users := users2
      king := some
        { userId := md.userId
          username := md.username
          amount := md.newTotalInvestment
          timestamp := some now
          crownedAt := some now
          paymentIntentId := some pid }
      history := t.history ++
        [WHistoryEvent.dethrone md.userId md.username md.newTotalInvestment
          currentKingData.userId currentKingData.username currentKingData.amount
          md.paymentAmount md.previousInvestment md.newTotalInvestment now pid] }
  else
    { users := users1
      king := t.king
      history := t.history ++
        [WHistoryEvent.payment md.userId md.username
          md.paymentAmount md.previousInvestment md.newTotalInvestment now pid] }

/-- Settlement of webhook.js (lines 81-188): read the paying user
document (throwing when absent aborts the transaction), then run the
write phase. -/
def webhookSettle (now : Int) (pid : String) (md : WMetadata) (t : WStore) :
    Except String WStore :=
  match lookupDoc t.users md.userId with
  | none => .error ("Usuario " ++ md.userId ++ " no encontrado")
  | some userData => .ok (wSettleBody now pid md t userData)

/-- User document as read by the Bid Quoter (`userData.totalInvested ||
0` keeps the field optional with default 0). -/
structure QuoteUser where
  username : String
  email : String
  totalInvested : Option ℚ
deriving DecidableEq

/-- Fallback king data used by the Bid Quoter when `current/king` is
absent (create-payment-intent.js line 83): amount 0, username Nadie. -/
def nadieKingData : KingData :=
  { userId := ""
    username := "Nadie"
    amount := 0
    timestamp := none
    crownedAt := none
    paymentIntentId := none }

/-- Minimum payment required to take the throne
(create-payment-intent.js lines 90-91): `requiredTotal =
currentKingData.amount + 0.01` and `requiredToPay =
Math.max(STRIPE_MINIMUM_USD, requiredTotal - userCurrentInvestment)`. -/
def requiredToPay (userCurrentInvestment currentKingAmount : ℚ) : ℚ :=
  max STRIPE_MINIMUM_USD (currentKingAmount + EPSILON - userCurrentInvestment)

/-- Outcome of the Bid Quoter handler.  Each rejection constructor
carries the monetary amount interpolated into its error message, when
the message carries one: the missing-fields message (line 50) carries
none, the below-minimum message (line 60) carries the fixed
STRIPE_MINIMUM_USD, and the below-required message (line 99) carries
the computed requiredToPay. -/
inductive QuoteResult where
  | missingFields
  | belowMinimum (shownAmount : ℚ)
  | userNotFound
  | belowRequired (shownAmount : ℚ)
  | accepted (metadata : PaymentMetadata)
deriving DecidableEq

/-- Monetary amount the error message of a rejection communicates to the
caller, when there is one. -/
def QuoteResult.communicatedAmount : QuoteResult → Option ℚ
  | .belowMinimum q => some q
  | .belowRequired q => some q
  | _ => none

/-- Bid Quoter handler of create-payment-intent.js (lines 43-138) after
transport glue: `amount` and `idToken` parsed from the body (JS
falsiness of a missing or zero amount and of a missing or empty token
modelled through the defaults), `userId` the identity the external
provider verified for the token, `userDoc` and `kingDoc` the fetched
documents.  Returns the validation outcome; on acceptance the payment
intent metadata carrying the quote-time prediction. -/
def createPaymentIntentHandler (amount : Option ℚ) (idToken : Option String)
    (userId : String) (userDoc : Option QuoteUser) (kingDoc : Option KingData) :
    QuoteResult :=
  if amount.getD 0 = 0 ∨ idToken.getD "" = "" then .missingFields
  else if amount.getD 0 < STRIPE_MINIMUM_USD then .belowMinimum STRIPE_MINIMUM_USD
  else
    match userDoc with
    | none => .userNotFound
    | some userData =>
      if amount.getD 0 <
          requiredToPay (userData.totalInvested.getD 0)
            ((kingDoc.getD nadieKingData).amount) then
        .belowRequired
          (requiredToPay (userData.totalInvested.getD 0)
            ((kingDoc.getD nadieKingData).amount))
      else
        .accepted
          { userId := userId
            username := userData.username
            amountPaid := amount.getD 0
            previousInvestment := userData.totalInvested.getD 0
            newTotalInvestment := userData.totalInvested.getD 0 + amount.getD 0
            willBecomeKing :=
              decide (userData.totalInvested.getD 0 + amount.getD 0 >
                (kingDoc.getD nadieKingData).amount)
            currentKingAmount := (kingDoc.getD nadieKingData).amount }

/-- Number of paymentHistory documents tagged with a given payment
intent id. -/
def historyCountFor (s : Store) (pid : String) : Nat :=
  s.paymentHistory.countP fun e => e.paymentIntentId = pid

/-- Number of paymentHistory documents recording a coronation. -/
def crownEventCount (s : Store) : Nat :=
  s.paymentHistory.countP fun e => e.willBecomeKing

/-! Concrete fixtures used by witnesses and counterexamples. -/

/-- Fresh bidder document with a given display name and stored total. -/
def baseUser (name : String) (total : ℚ) : User :=
  { username := name, totalInvested := total, lastPaymentAmount := none,
    lastPaymentDate := none, timesAsKing := 0, totalTimeAsKing := 0, longestReign := 0 }

/-- Fresh webhook.js bidder document. -/
def baseWUser (name : String) (total : ℚ) : WUser :=
  { username := name, totalInvested := total, lastPaymentAmount := none,
    lastPaymentDate := none, lastPaymentIntentId := none, timesAsKing := 0,
    totalTimeAsKing := 0, longestReign := 0, lastCrowned := none }

/-- Throne record with a given holder, amount and coronation time. -/
def mkKing (uid name : String) (amt : ℚ) (cr : Option Int) : KingData :=
  { userId := uid, username := name, amount := amt, timestamp := none,
    crownedAt := cr, paymentIntentId := none }

/-- Store for the C1 scenario: bidder b has stored total 7, throne amount 0. -/
def c1Store : Store :=
  { users := [("b", baseUser "B" 7)], king := some (mkKing "k0" "K" 0 none),
    paymentHistory := [] }

/-- Event metadata for C1: paid 1, but the caller-supplied predicted total
is 100 and the quote-time prediction is no coronation. -/
def c1Md : PaymentMetadata :=
  { userId := "b", username := "B", amountPaid := 1, previousInvestment := 7,
    newTotalInvestment := 100, willBecomeKing := false, currentKingAmount := 0 }

/-- Result of settling the C1 event. -/
def c1Result : Store := settleBody 0 "pi_1" c1Md c1Store (baseUser "B" 7)

/-- Store for the C2 scenario: one bidder, no throne, empty history. -/
def c2Store : Store :=
  { users := [("b", baseUser "B" 0)], king := none, paymentHistory := [] }

/-- Event metadata for C2. -/
def c2Md : PaymentMetadata :=
  { userId := "b", username := "B", amountPaid := 5, previousInvestment := 0,
    newTotalInvestment := 5, willBecomeKing := false, currentKingAmount := 0 }

/-- State after the first delivery of the C2 event. -/
def c2Once : Store := settleBody 7 "pi_2" c2Md c2Store (baseUser "B" 0)

/-- Stored state of bidder b between the two C2 deliveries. -/
def c2UserAfter : User :=
  { username := "B", totalInvested := 5, lastPaymentAmount := some 5,
    lastPaymentDate := some 7, timesAsKing := 0, totalTimeAsKing := 0,
    longestReign := 0 }

/-- State after the second delivery of the same C2 event. -/
def c2Twice : Store := settleBody 7 "pi_2" c2Md c2Once c2UserAfter

/-- webhook.js store for the C3 scenario: throne amount exactly 10. -/
def c3WStore : WStore :=
  { users := [("bb", baseWUser "B" 10)], king := some (mkKing "k0" "K" 10 none),
    history := [] }

/-- Event metadata for C3: new total 10.005, above the throne by only half
of EPSILON. -/
def c3Md : WMetadata :=
  { userId := "bb", username := "B", paymentAmount := 1, previousInvestment := 10,
    newTotalInvestment := 2001/200, previousKingAmount := 10 }

/-- Result of settling the C3 event through webhook.js. -/
def c3Result : WStore := wSettleBody 3 "pi_3" c3Md c3WStore (baseWUser "B" 10)

/-- Store for the C4 scenario: bidder b already has stored total 10. -/
def c4Store : Store :=
  { users := [("b", baseUser "B" 10)], king := none, paymentHistory := [] }

/-- Event metadata for C4: a concurrent payment quoted from the stale
total 0, carrying predicted new total 5. -/
def c4Md : PaymentMetadata :=
  { userId := "b", username := "B", amountPaid := 5, previousInvestment := 0,
    newTotalInvestment := 5, willBecomeKing := false, currentKingAmount := 0 }

/-- Result of settling the C4 event. -/
def c4Result : Store := settleBody 4 "pi_4" c4Md c4Store (baseUser "B" 10)

/-- Store for the C5 race: two bidders, throne amount 10 held by k0. -/
def c5Store : Store :=
  { users := [("a", baseUser "A" 0), ("bb", baseUser "B" 0)],
    king := some (mkKing "k0" "K" 10 none), paymentHistory := [] }

/-- First racing event: bidder a, predicted total 12, predicted victory. -/
def c5MdA : PaymentMetadata :=
  { userId := "a", username := "A", amountPaid := 12, previousInvestment := 0,
    newTotalInvestment := 12, willBecomeKing := true, currentKingAmount := 10 }

/-- Second racing event: bidder bb, predicted total 11, predicted victory. -/
def c5MdB : PaymentMetadata :=
  { userId := "bb", username := "B", amountPaid := 11, previousInvestment := 0,
    newTotalInvestment := 11, willBecomeKing := true, currentKingAmount := 10 }

/-- State after settling the first racing event. -/
def c5Step1 : Store := settleBody 1 "pi_5a" c5MdA c5Store (baseUser "A" 0)

/-- State after settling the second racing event on top of the first. -/
def c5Step2 : Store := settleBody 2 "pi_5b" c5MdB c5Step1 (baseUser "B" 0)

/-- Store for the C7 scenario: previous king p crowned at time 40 with
stats totalTimeAsKing 5 and longestReign 50; challenger b. -/
def c7Store : Store :=
  { users := [("b", baseUser "B" 3),
              ("p", { (baseUser "P" 50) with totalTimeAsKing := 5, longestReign := 50 })],
    king := some (mkKing "p" "P" 50 (some 40)), paymentHistory := [] }

/-- Event metadata for C7: bidder b dethrones p at time 100. -/
def c7Md : PaymentMetadata :=
  { userId := "b", username := "B", amountPaid := 48, previousInvestment := 3,
    newTotalInvestment := 51, willBecomeKing := true, currentKingAmount := 50 }

/-- Result of settling the C7 event at time 100. -/
def c7Result : Store := settleBody 100 "pi_7" c7Md c7Store (baseUser "B" 3)

/-- webhook.js store for the C8 scenario: no throne document at all. -/
def c8WStore : WStore :=
  { users := [("b", baseWUser "B" 0)], king := none, history := [] }

/-- Event metadata for C8: new total 5, positive but below the ReyInicial
default 10. -/
def c8Md : WMetadata :=
  { userId := "b", username := "B", paymentAmount := 5, previousInvestment := 0,
    newTotalInvestment := 5, previousKingAmount := 10 }

/-- Result of settling the C8 event through webhook.js. -/
def c8Result : WStore := wSettleBody 9 "pi_8" c8Md c8WStore (baseWUser "B" 0)

/-- Second C8 event with new total 11, above the ReyInicial default. -/
def c8MdHigh : WMetadata :=
  { userId := "b", username := "B", paymentAmount := 11, previousInvestment := 0,
    newTotalInvestment := 11, previousKingAmount := 10 }

/-- Result of settling the second C8 event through webhook.js. -/
def c8ResultHigh : WStore := wSettleBody 9 "pi_8b" c8MdHigh c8WStore (baseWUser "B" 0)

/-- Quoter user fixture: stored total 0. -/
def c9User : QuoteUser := { username := "B", email := "b@x", totalInvested := some 0 }

/-- Quoter king fixture: throne amount 10. -/
def c9King : KingData := mkKing "k0" "K" 10 none

/-- Metadata the quoter attaches for the C10 witness request. -/
def c10Md : PaymentMetadata :=
  { userId := "u1", username := "B", amountPaid := 11, previousInvestment := 0,
    newTotalInvestment := 11, willBecomeKing := true, currentKingAmount := 10 }

/-! Generic lemmas about document lookup and update. -/

theorem lookupDoc_updateDoc_self {α : Type} (us : List (String × α)) (key : String)
    (f : α → α) : lookupDoc (updateDoc us key f) key = (lookupDoc us key).map f := by
  induction us with
  | nil => rfl
  | cons p rest ih =>
    obtain ⟨k, u⟩ := p
    by_cases h : k = key
    · simp [updateDoc, lookupDoc, h]
    · simp [updateDoc, lookupDoc, h, ih]

theorem lookupDoc_updateDoc_ne {α : Type} (us : List (String × α)) (key k : String)
    (f : α → α) (h : key ≠ k) :
    lookupDoc (updateDoc us key f) k = lookupDoc us k := by
  induction us with
  | nil => rfl
  | cons p rest ih =>
    obtain ⟨k0, u⟩ := p
    by_cases h0 : k0 = key
    · subst h0
      simp [updateDoc, lookupDoc, h]
    · by_cases h1 : k0 = k
      · subst h1
        simp [updateDoc, lookupDoc, h0]
      · simp [updateDoc, lookupDoc, h0, h1, ih]

theorem lookupDoc_updateDoc_map {α β : Type} (g : α → β) (us : List (String × α))
    (key k : String) (f : α → α) (hf : ∀ a, g (f a) = g a) :
    (lookupDoc (updateDoc us key f) k).map g = (lookupDoc us k).map g := by
  by_cases h : key = k
  · subst h
    rw [lookupDoc_updateDoc_self]
    cases lookupDoc us key <;> simp [hf]
  · rw [lookupDoc_updateDoc_ne _ _ _ _ h]

/-! Characterisations of the two settlement functions. -/

theorem settleTransaction_ok_iff (now : Int) (pid : String) (md : PaymentMetadata)
    (s s' : Store) :
    settleTransaction now pid md s = .ok s' ↔
      ∃ u, lookupDoc s.users md.userId = some u ∧ s' = settleBody now pid md s u := by
  unfold settleTransaction
  cases h : lookupDoc s.users md.userId with
  | none => simp
  | some u => simp [eq_comm]

theorem webhookSettle_ok_iff (now : Int) (pid : String) (md : WMetadata)
    (t t' : WStore) :
    webhookSettle now pid md t = .ok t' ↔
      ∃ u, lookupDoc t.users md.userId = some u ∧ t' = wSettleBody now pid md t u := by
  unfold webhookSettle
  cases h : lookupDoc t.users md.userId with
  | none => simp
  | some u => simp [eq_comm]

theorem prevKingInfo_eq_some (md : PaymentMetadata) (s : Store) (pk : KingData)
    (pkU : User) (h : prevKingInfo md s = some (pk, pkU)) :
    s.king = some pk ∧ pk.userId ≠ "" ∧ pk.userId ≠ md.userId ∧
      lookupDoc s.users pk.userId = some pkU := by
  cases hk : s.king with
  | none =>
    have hbody : prevKingInfo md s = none := by
      unfold prevKingInfo; rw [hk]
    rw [hbody] at h
    exact absurd h (by simp)
  | some pk0 =>
    have hbody : prevKingInfo md s =
        if pk0.userId ≠ "" ∧ pk0.userId ≠ md.userId then
          (lookupDoc s.users pk0.userId).map fun u => (pk0, u)
        else none := by
      unfold prevKingInfo; rw [hk]
    rw [hbody] at h
    by_cases hc : pk0.userId ≠ "" ∧ pk0.userId ≠ md.userId
    · rw [if_pos hc] at h
      rcases Option.map_eq_some'.mp h with ⟨u0, hl, hpair⟩
      have hpair2 : (pk0, u0) = (pk, pkU) := hpair
      injection hpair2 with hpk0 hu0
      subst hpk0; subst hu0
      exact ⟨rfl, hc.1, hc.2, hl⟩
    · rw [if_neg hc] at h; exact absurd h (by simp)

theorem prevKingInfo_of (md : PaymentMetadata) (s : Store) (pk : KingData)
    (pkU : User) (hk : s.king = some pk) (h1 : pk.userId ≠ "")
    (h2 : pk.userId ≠ md.userId) (hl : lookupDoc s.users pk.userId = some pkU) :
    prevKingInfo md s = some (pk, pkU) := by
  have hbody : prevKingInfo md s =
      if pk.userId ≠ "" ∧ pk.userId ≠ md.userId then
        (lookupDoc s.users pk.userId).map fun u => (pk, u)
      else none := by
    unfold prevKingInfo; rw [hk]
  rw [hbody, if_pos ⟨h1, h2⟩, hl]
  rfl

theorem settleBody_paymentHistory (now : Int) (pid : String) (md : PaymentMetadata)
    (s : Store) (u : User) :
    (settleBody now pid md s u).paymentHistory =
      s.paymentHistory ++ [mkPaymentHistoryEvent now pid md] := by
  cases hw : md.willBecomeKing <;> simp [settleBody, hw]

theorem settleBody_king (now : Int) (pid : String) (md : PaymentMetadata)
    (s : Store) (u : User) :
    (settleBody now pid md s u).king =
      if md.willBecomeKing then
        some { userId := md.userId, username := md.username,
               amount := md.newTotalInvestment, timestamp := some now,
               crownedAt := some now, paymentIntentId := some pid }
      else s.king := by
  cases hw : md.willBecomeKing <;> simp [settleBody, hw]

theorem settleBody_payer_total (now : Int) (pid : String) (md : PaymentMetadata)
    (s : Store) (u u0 : User) (hu : lookupDoc s.users md.userId = some u0) :
    (lookupDoc (settleBody now pid md s u).users md.userId).map User.totalInvested =
      some md.newTotalInvestment := by
  cases hw : md.willBecomeKing with
  | false =>
    simp only [settleBody, hw, Bool.false_eq_true, if_false]
    rw [lookupDoc_updateDoc_self, hu]
    rfl
  | true =>
    cases hpk : prevKingInfo md s with
    | none =>
      simp only [settleBody, hw, if_true]
      rw [hpk]
      rw [lookupDoc_updateDoc_self, lookupDoc_updateDoc_self, hu]
      rfl
    | some pkpkU =>
      obtain ⟨pk, pkU⟩ := pkpkU
      have hne : pk.userId ≠ md.userId := (prevKingInfo_eq_some _ _ _ _ hpk).2.2.1
      simp only [settleBody, hw, if_true]
      rw [hpk]
      rw [lookupDoc_updateDoc_self, lookupDoc_updateDoc_ne _ _ _ _ hne,
        lookupDoc_updateDoc_self, hu]
      rfl

theorem settleBody_other_total (now : Int) (pid : String) (md : PaymentMetadata)
    (s : Store) (u : User) (k : String) (hk : k ≠ md.userId) :
    (lookupDoc (settleBody now pid md s u).users k).map User.totalInvested =
      (lookupDoc s.users k).map User.totalInvested := by
  cases hw : md.willBecomeKing with
  | false =>
    simp only [settleBody, hw, Bool.false_eq_true, if_false]
    rw [lookupDoc_updateDoc_ne _ _ _ _ (Ne.symm hk)]
  | true =>
    cases hpk : prevKingInfo md s with
    | none =>
      simp only [settleBody, hw, if_true]
      rw [hpk]
      rw [lookupDoc_updateDoc_ne _ _ _ _ (Ne.symm hk),
        lookupDoc_updateDoc_ne _ _ _ _ (Ne.symm hk)]
    | some pkpkU =>
      obtain ⟨pk, pkU⟩ := pkpkU
      simp only [settleBody, hw, if_true]
      rw [hpk]
      rw [lookupDoc_updateDoc_ne _ _ _ _ (Ne.symm hk)]
      rw [lookupDoc_updateDoc_map User.totalInvested]
      · rw [lookupDoc_updateDoc_ne _ _ _ _ (Ne.symm hk)]
      · intro a; rfl

theorem settleBody_reignStats_other (now : Int) (pid : String) (md : PaymentMetadata)
    (s : Store) (u : User) (k : String)
    (hpk_k : ∀ pk pkU, prevKingInfo md s = some (pk, pkU) → pk.userId ≠ k) :
    (lookupDoc (settleBody now pid md s u).users k).map
        (fun v => (v.totalTimeAsKing, v.longestReign)) =
      (lookupDoc s.users k).map (fun v => (v.totalTimeAsKing, v.longestReign)) := by
  cases hw : md.willBecomeKing with
  | false =>
    simp only [settleBody, hw, Bool.false_eq_true, if_false]
    rw [lookupDoc_updateDoc_map (fun (v : User) => (v.totalTimeAsKing, v.longestReign))]
    intro a; rfl
  | true =>
    cases hpk : prevKingInfo md s with
    | none =>
      simp only [settleBody, hw, if_true]
      rw [hpk]
      rw [lookupDoc_updateDoc_map (fun (v : User) => (v.totalTimeAsKing, v.longestReign))]
      · rw [lookupDoc_updateDoc_map (fun (v : User) => (v.totalTimeAsKing, v.longestReign))]
        intro a; rfl
      · intro a; rfl
    | some pkpkU =>
      obtain ⟨pk, pkU⟩ := pkpkU
      simp only [settleBody, hw, if_true]
      rw [hpk]
      rw [lookupDoc_updateDoc_map (fun (v : User) => (v.totalTimeAsKing, v.longestReign))]
      · rw [lookupDoc_updateDoc_ne _ _ _ _ (hpk_k pk pkU hpk)]
        rw [lookupDoc_updateDoc_map (fun (v : User) => (v.totalTimeAsKing, v.longestReign))]
        intro a; rfl
      · intro a; rfl

theorem settleBody_prevKing_user (now : Int) (pid : String) (md : PaymentMetadata)
    (s : Store) (u : User) (pk : KingData) (pkU : User)
    (hpk : prevKingInfo md s = some (pk, pkU)) (hw : md.willBecomeKing = true) :
    lookupDoc (settleBody now pid md s u).users pk.userId =
      some { pkU with
        totalTimeAsKing := pkU.totalTimeAsKing + (now - pk.crownedAt.getD now)
        longestReign := max pkU.longestReign (now - pk.crownedAt.getD now) } := by
  obtain ⟨hk, h1, h2, hl⟩ := prevKingInfo_eq_some _ _ _ _ hpk
  simp only [settleBody, hw, if_true]
  rw [hpk]
  rw [lookupDoc_updateDoc_ne _ _ _ _ (Ne.symm h2), lookupDoc_updateDoc_self,
    lookupDoc_updateDoc_ne _ _ _ _ (Ne.symm h2), hl]
  rfl

theorem wSettleBody_king (now : Int) (pid : String) (md : WMetadata)
    (t : WStore) (u : WUser) :
    (wSettleBody now pid md t u).king =
      if md.newTotalInvestment > wThroneAmount t then
        some { userId := md.userId, username := md.username,
               amount := md.newTotalInvestment, timestamp := some now,
               crownedAt := some now, paymentIntentId := some pid }
      else t.king := by
  by_cases h : md.newTotalInvestment > wThroneAmount t
  · rw [if_pos h]
    unfold wThroneAmount at h
    simp [wSettleBody, h]
  · rw [if_neg h]
    unfold wThroneAmount at h
    simp [wSettleBody, h]

theorem wSettleBody_payer_total (now : Int) (pid : String) (md : WMetadata)
    (t : WStore) (u u0 : WUser) (hu : lookupDoc t.users md.userId = some u0) :
    (lookupDoc (wSettleBody now pid md t u).users md.userId).map WUser.totalInvested =
      some md.newTotalInvestment := by
  by_cases h : md.newTotalInvestment > (t.king.getD defaultKingData).amount
  · simp only [wSettleBody, h, if_true]
    rw [lookupDoc_updateDoc_self, lookupDoc_updateDoc_self, hu]
    rfl
  · simp only [wSettleBody, h, if_false]
    rw [lookupDoc_updateDoc_self, hu]
    rfl

theorem historyCountFor_settleBody (now : Int) (pid : String) (md : PaymentMetadata)
    (s : Store) (u : User) (p : String) :
    historyCountFor (settleBody now pid md s u) p =
      historyCountFor s p + if pid = p then 1 else 0 := by
  unfold historyCountFor
  rw [settleBody_paymentHistory, List.countP_append]
  simp [mkPaymentHistoryEvent, List.countP_cons]

theorem crownEventCount_settleBody (now : Int) (pid : String) (md : PaymentMetadata)
    (s : Store) (u : User) :
    crownEventCount (settleBody now pid md s u) =
      crownEventCount s + if md.willBecomeKing then 1 else 0 := by
  unfold crownEventCount
  rw [settleBody_paymentHistory, List.countP_append]
  simp [mkPaymentHistoryEvent, List.countP_cons]

/-! Claim C1. -/

/-- Claim C1 counterexample: at a store where bidder b has stored total 7
and the throne amount is 0, an event paying 1 whose metadata carries
predicted total 100 and the flag willBecomeKing false settles to stored
total 100 (not 7 + 1 = 8) and leaves the throne unchanged even though
7 + 1 exceeds the freshly read throne amount 0; the transaction uses the
caller-supplied values, not recomputed ones. -/
theorem c1_counterexample :
    settleTransaction 0 "pi_1" c1Md c1Store = .ok c1Result
    ∧ (lookupDoc c1Result.users "b").map User.totalInvested = some 100
    ∧ ((7:ℚ) + 1 ≠ 100)
    ∧ c1Result.king = c1Store.king
    ∧ ((7:ℚ) + 1 > 0) :=
  ⟨rfl, by decide, by norm_num, by decide, by norm_num⟩

/-- Claim C1 (amended): both settlement handlers set the paying bidder
stored total to the caller-supplied metadata newTotalInvestment; the
create-payment-intent transaction takes the coronation decision directly
from the metadata willBecomeKing flag, while webhook.js recomputes the
decision against the freshly read throne amount but still from the
metadata-supplied new total. -/
theorem c1_settlement_trusts_metadata
    (now : Int) (pid : String) (md : PaymentMetadata) (s s' : Store)
    (wnow : Int) (wpid : String) (wmd : WMetadata) (t t' : WStore)
    (h : settleTransaction now pid md s = .ok s')
    (hw : webhookSettle wnow wpid wmd t = .ok t') :
    (lookupDoc s'.users md.userId).map User.totalInvested = some md.newTotalInvestment
    ∧ (md.willBecomeKing = true →
        s'.king = some { userId := md.userId, username := md.username,
                         amount := md.newTotalInvestment, timestamp := some now,
                         crownedAt := some now, paymentIntentId := some pid })
    ∧ (md.willBecomeKing = false → s'.king = s.king)
    ∧ (lookupDoc t'.users wmd.userId).map WUser.totalInvested = some wmd.newTotalInvestment
    ∧ (wmd.newTotalInvestment > wThroneAmount t →
        t'.king = some { userId := wmd.userId, username := wmd.username,
                         amount := wmd.newTotalInvestment, timestamp := some wnow,
                         crownedAt := some wnow, paymentIntentId := some wpid })
    ∧ (¬ wmd.newTotalInvestment > wThroneAmount t → t'.king = t.king) := by
  obtain ⟨u0, hu, rfl⟩ := (settleTransaction_ok_iff _ _ _ _ _).mp h
  obtain ⟨w0, hwu, rfl⟩ := (webhookSettle_ok_iff _ _ _ _ _).mp hw
  refine ⟨settleBody_payer_total _ _ _ _ _ _ hu, ?_, ?_,
    wSettleBody_payer_total _ _ _ _ _ _ hwu, ?_, ?_⟩
  · intro hwill
    rw [settleBody_king, if_pos hwill]
  · intro hwill
    rw [settleBody_king, if_neg (by rw [hwill]; simp)]
  · intro hgt
    rw [wSettleBody_king, if_pos hgt]
  · intro hgt
    rw [wSettleBody_king, if_neg hgt]

/-- Claim C1 witness: the amended theorem applied at the concrete C1 and
C8 fixtures. -/
theorem c1_witness :
    settleTransaction 0 "pi_1" c1Md c1Store = .ok c1Result
    ∧ webhookSettle 9 "pi_8" c8Md c8WStore = .ok c8Result
    ∧ (lookupDoc c1Result.users "b").map User.totalInvested = some 100 :=
  ⟨rfl, rfl,
    (c1_settlement_trusts_metadata 0 "pi_1" c1Md c1Store c1Result
      9 "pi_8" c8Md c8WStore c8Result rfl rfl).1⟩

/-! Claim C2. -/

/-- Claim C2 counterexample: delivering the same confirmation event (same
payment intent id) twice is not idempotent: the second application
changes the state again, and two paymentHistory documents tagged with
the payment reference exist afterwards; there is no idempotency check. -/
theorem c2_counterexample :
    settleTransaction 7 "pi_2" c2Md c2Store = .ok c2Once
    ∧ settleTransaction 7 "pi_2" c2Md c2Once = .ok c2Twice
    ∧ c2Twice ≠ c2Once
    ∧ historyCountFor c2Once "pi_2" = 1
    ∧ historyCountFor c2Twice "pi_2" = 2 :=
  ⟨rfl, rfl, by decide, by decide, by decide⟩

/-- Claim C2 (amended): replaying a confirmation event sets the bidder
total to the same metadata value (so the stored total is unchanged by
the replay) but appends one further paymentHistory document tagged with
the same payment reference per delivery: state is mutated once per
delivery, not at most once per payment reference. -/
theorem c2_replay_behaviour
    (now1 now2 : Int) (pid : String) (md : PaymentMetadata) (s0 s1 s2 : Store)
    (h1 : settleTransaction now1 pid md s0 = .ok s1)
    (h2 : settleTransaction now2 pid md s1 = .ok s2) :
    (lookupDoc s1.users md.userId).map User.totalInvested = some md.newTotalInvestment
    ∧ (lookupDoc s2.users md.userId).map User.totalInvested = some md.newTotalInvestment
    ∧ historyCountFor s1 pid = historyCountFor s0 pid + 1
    ∧ historyCountFor s2 pid = historyCountFor s0 pid + 2 := by
  obtain ⟨u0, hu0, rfl⟩ := (settleTransaction_ok_iff _ _ _ _ _).mp h1
  obtain ⟨u1, hu1, rfl⟩ := (settleTransaction_ok_iff _ _ _ _ _).mp h2
  refine ⟨settleBody_payer_total _ _ _ _ _ _ hu0,
    settleBody_payer_total _ _ _ _ _ _ hu1, ?_, ?_⟩
  · rw [historyCountFor_settleBody, if_pos rfl]
  · rw [historyCountFor_settleBody, historyCountFor_settleBody, if_pos rfl]

/-- Claim C2 witness: the amended theorem applied at the concrete C2
fixture. -/
theorem c2_witness :
    settleTransaction 7 "pi_2" c2Md c2Store = .ok c2Once
    ∧ settleTransaction 7 "pi_2" c2Md c2Once = .ok c2Twice
    ∧ historyCountFor c2Twice "pi_2" = historyCountFor c2Store "pi_2" + 2 :=
  ⟨rfl, rfl,
    (c2_replay_behaviour 7 7 "pi_2" c2Md c2Store c2Once c2Twice rfl rfl).2.2.2⟩

/-! Claim C3. -/

/-- Claim C3 counterexample: webhook.js installs a new throne for a new
total of 10.005 against a throne amount of 10, although the margin is
only half of EPSILON = 0.01; the minimum increment is not enforced at
settlement time. -/
theorem c3_counterexample :
    webhookSettle 3 "pi_3" c3Md c3WStore = .ok c3Result
    ∧ c3Result.king.map KingData.userId = some "bb"
    ∧ c3Result.king.map KingData.amount = some (2001/200)
    ∧ c3Md.newTotalInvestment < wThroneAmount c3WStore + EPSILON := by
  have hgt : c3Md.newTotalInvestment > wThroneAmount c3WStore := by
    norm_num [c3Md, wThroneAmount, c3WStore, mkKing]
  have hking : c3Result.king = some
      { userId := "bb", username := "B", amount := 2001/200, timestamp := some 3,
        crownedAt := some 3, paymentIntentId := some "pi_3" } := by
    show (wSettleBody 3 "pi_3" c3Md c3WStore (baseWUser "B" 10)).king = _
    rw [wSettleBody_king, if_pos hgt]
    rfl
  refine ⟨rfl, ?_, ?_, ?_⟩
  · rw [hking]
    rfl
  · rw [hking]
    rfl
  · norm_num [c3Md, wThroneAmount, c3WStore, mkKing, EPSILON]

/-- Claim C3 (amended): webhook.js installs a new throne record exactly
when the metadata new total strictly exceeds the freshly read throne
amount, by any positive margin; the create-payment-intent transaction
installs it exactly when the metadata willBecomeKing flag is set; the
fixed increment EPSILON enters only the requiredToPay computation of the
Bid Quoter. -/
theorem c3_coronation_margin
    (now : Int) (pid : String) (wmd : WMetadata) (t t' : WStore)
    (nowc : Int) (pidc : String) (md : PaymentMetadata) (s s' : Store)
    (inv ka : ℚ)
    (hok : webhookSettle now pid wmd t = .ok t')
    (hokc : settleTransaction nowc pidc md s = .ok s') :
    (wmd.newTotalInvestment > wThroneAmount t →
      t'.king = some { userId := wmd.userId, username := wmd.username,
                       amount := wmd.newTotalInvestment, timestamp := some now,
                       crownedAt := some now, paymentIntentId := some pid })
    ∧ (¬ wmd.newTotalInvestment > wThroneAmount t → t'.king = t.king)
    ∧ (md.willBecomeKing = true →
      s'.king = some { userId := md.userId, username := md.username,
                       amount := md.newTotalInvestment, timestamp := some nowc,
                       crownedAt := some nowc, paymentIntentId := some pidc })
    ∧ (md.willBecomeKing = false → s'.king = s.king)
    ∧ requiredToPay inv ka = max STRIPE_MINIMUM_USD (ka + EPSILON - inv) := by
  obtain ⟨w0, hwu, rfl⟩ := (webhookSettle_ok_iff _ _ _ _ _).mp hok
  obtain ⟨u0, hu, rfl⟩ := (settleTransaction_ok_iff _ _ _ _ _).mp hokc
  refine ⟨?_, ?_, ?_, ?_, rfl⟩
  · intro hgt
    rw [wSettleBody_king, if_pos hgt]
  · intro hgt
    rw [wSettleBody_king, if_neg hgt]
  · intro hwill
    rw [settleBody_king, if_pos hwill]
  · intro hwill
    rw [settleBody_king, if_neg (by rw [hwill]; simp)]

/-- Claim C3 witness: the amended theorem applied at the concrete C3 and
C1 fixtures. -/
theorem c3_witness :
    webhookSettle 3 "pi_3" c3Md c3WStore = .ok c3Result
    ∧ c3Result.king = some
        { userId := "bb", username := "B", amount := 2001/200, timestamp := some 3,
          crownedAt := some 3, paymentIntentId := some "pi_3" } := by
  refine ⟨rfl, ?_⟩
  exact (c3_coronation_margin 3 "pi_3" c3Md c3WStore c3Result
      0 "pi_1" c1Md c1Store c1Result 0 0 rfl rfl).1
    (by norm_num [c3Md, wThroneAmount, c3WStore, mkKing])

/-! Claim C4. -/

/-- Claim C4 counterexample: a bidder with stored total 10 settles an
event whose metadata carries predicted new total 5 (a concurrent payment
quoted from the stale total 0); the stored total drops from 10 to 5, so
totalInvested is not non-decreasing across settlements. -/
theorem c4_counterexample :
    settleTransaction 4 "pi_4" c4Md c4Store = .ok c4Result
    ∧ (lookupDoc c4Store.users "b").map User.totalInvested = some 10
    ∧ (lookupDoc c4Result.users "b").map User.totalInvested = some 5
    ∧ ¬ ((10:ℚ) ≤ 5) :=
  ⟨rfl, by decide, by decide, by norm_num⟩

/-- Claim C4 (amended): a settlement sets the paying bidder stored total
to the event metadata newTotalInvestment and leaves every other bidder
total unchanged; totals are therefore non-decreasing exactly when each
settled event carries a metadata total at least the stored one, which
holds for quoter-generated events settled against unchanged bidder state
but not under concurrent payments by the same bidder. -/
theorem c4_totals_under_settlement
    (now : Int) (pid : String) (md : PaymentMetadata) (s s' : Store)
    (hok : settleTransaction now pid md s = .ok s')
    (hup : ∀ u, lookupDoc s.users md.userId = some u →
      u.totalInvested ≤ md.newTotalInvestment) :
    (lookupDoc s'.users md.userId).map User.totalInvested = some md.newTotalInvestment
    ∧ ∀ k u, lookupDoc s.users k = some u →
        ∃ u', lookupDoc s'.users k = some u' ∧ u.totalInvested ≤ u'.totalInvested := by
  obtain ⟨u0, hu0, rfl⟩ := (settleTransaction_ok_iff _ _ _ _ _).mp hok
  refine ⟨settleBody_payer_total _ _ _ _ _ _ hu0, ?_⟩
  intro k u hk
  by_cases hkp : k = md.userId
  · subst hkp
    rcases Option.map_eq_some'.mp (settleBody_payer_total now pid md s u0 u0 hu0)
      with ⟨u', hu', hval⟩
    refine ⟨u', hu', ?_⟩
    rw [hval]
    exact hup u hk
  · have heq2 : (lookupDoc (settleBody now pid md s u0).users k).map User.totalInvested =
        some u.totalInvested := by
      rw [settleBody_other_total now pid md s u0 k hkp, hk]
      rfl
    rcases Option.map_eq_some'.mp heq2 with ⟨u', hu', hval⟩
    refine ⟨u', hu', ?_⟩
    rw [hval]

/-- Claim C4 witness: the amended theorem applied at the concrete C2
fixture, where the metadata total 5 is at least the stored total 0. -/
theorem c4_witness :
    settleTransaction 7 "pi_2" c2Md c2Store = .ok c2Once
    ∧ (lookupDoc c2Once.users "b").map User.totalInvested = some 5 := by
  refine ⟨rfl, ?_⟩
  refine (c4_totals_under_settlement 7 "pi_2" c2Md c2Store c2Once rfl ?_).1
  intro u hu
  have h0 : lookupDoc c2Store.users c2Md.userId = some (baseUser "B" 0) := by decide
  rw [h0] at hu
  injection hu with hu2
  rw [← hu2]
  norm_num [baseUser, c2Md]

/-! Claim C5. -/

/-- Claim C5 counterexample: two confirmed payments for different bidders
a and bb, both carrying the prediction of victory against the same stale
throne amount 10, settle in sequence to TWO coronations, not exactly
one: first a is crowned with amount 12, then bb is crowned with amount
11 even though 11 is below 12; two coronation history records exist. -/
theorem c5_counterexample :
    settleTransaction 1 "pi_5a" c5MdA c5Store = .ok c5Step1
    ∧ settleTransaction 2 "pi_5b" c5MdB c5Step1 = .ok c5Step2
    ∧ c5Step1.king = some { userId := "a", username := "A", amount := 12,
                            timestamp := some 1, crownedAt := some 1,
                            paymentIntentId := some "pi_5a" }
    ∧ c5Step2.king = some { userId := "bb", username := "B", amount := 11,
                            timestamp := some 2, crownedAt := some 2,
                            paymentIntentId := some "pi_5b" }
    ∧ crownEventCount c5Step2 = 2
    ∧ ¬ crownEventCount c5Step2 = 1
    ∧ ((11:ℚ) < 12) :=
  ⟨rfl, rfl, by decide, by decide, by decide, by decide, by decide⟩

/-- Claim C5 (amended): when two events for different bidders both carry
the trusted flag willBecomeKing, settling them in sequence installs each
bidder as king in turn: two coronations occur, the final throne holder
is whichever settles second with amount equal to its own metadata total
(even when lower than the first), and each bidder keeps its own metadata
total recorded. -/
theorem c5_race_behaviour
    (now1 now2 : Int) (pid1 pid2 : String) (mdA mdB : PaymentMetadata)
    (s0 s1 s2 : Store)
    (hAB : mdA.userId ≠ mdB.userId)
    (hwA : mdA.willBecomeKing = true) (hwB : mdB.willBecomeKing = true)
    (h1 : settleTransaction now1 pid1 mdA s0 = .ok s1)
    (h2 : settleTransaction now2 pid2 mdB s1 = .ok s2) :
    s1.king = some { userId := mdA.userId, username := mdA.username,
                     amount := mdA.newTotalInvestment, timestamp := some now1,
                     crownedAt := some now1, paymentIntentId := some pid1 }
    ∧ s2.king = some { userId := mdB.userId, username := mdB.username,
                       amount := mdB.newTotalInvestment, timestamp := some now2,
                       crownedAt := some now2, paymentIntentId := some pid2 }
    ∧ (lookupDoc s2.users mdA.userId).map User.totalInvested = some mdA.newTotalInvestment
    ∧ (lookupDoc s2.users mdB.userId).map User.totalInvested = some mdB.newTotalInvestment
    ∧ crownEventCount s2 = crownEventCount s0 + 2 := by
  obtain ⟨uA, huA, rfl⟩ := (settleTransaction_ok_iff _ _ _ _ _).mp h1
  obtain ⟨uB, huB, rfl⟩ := (settleTransaction_ok_iff _ _ _ _ _).mp h2
  refine ⟨?_, ?_, ?_, ?_, ?_⟩
  · rw [settleBody_king, if_pos hwA]
  · rw [settleBody_king, if_pos hwB]
  · rw [settleBody_other_total _ _ _ _ _ _ hAB]
    exact settleBody_payer_total _ _ _ _ _ _ huA
  · exact settleBody_payer_total _ _ _ _ _ _ huB
  · rw [crownEventCount_settleBody, crownEventCount_settleBody, if_pos hwB, if_pos hwA]

/-- Claim C5 witness: the amended theorem applied at the concrete C5
fixtures. -/
theorem c5_witness :
    settleTransaction 1 "pi_5a" c5MdA c5Store = .ok c5Step1
    ∧ settleTransaction 2 "pi_5b" c5MdB c5Step1 = .ok c5Step2
    ∧ crownEventCount c5Step2 = crownEventCount c5Store + 2 :=
  ⟨rfl, rfl,
    (c5_race_behaviour 1 2 "pi_5a" "pi_5b" c5MdA c5MdB c5Store c5Step1 c5Step2
      (by decide) rfl rfl rfl rfl).2.2.2.2⟩

/-! Claim C6. -/

/-- Claim C6: the Bid Quoter computes requiredToPay as the maximum of
MIN_PAYMENT = 0.50 and throneAmount + EPSILON - bidderTotalInvested,
the result is non-negative, and the three quoted instances evaluate to
10.01, 5.01 and 0.50. -/
theorem c6_quote_formula (inv ka : ℚ) (h1 : 0 ≤ inv) (h2 : 0 ≤ ka) :
    requiredToPay inv ka = max STRIPE_MINIMUM_USD (ka + EPSILON - inv)
    ∧ 0 ≤ requiredToPay inv ka
    ∧ requiredToPay 0 10 = 1001/100
    ∧ requiredToPay 5 10 = 501/100
    ∧ requiredToPay 12 10 = 1/2 := by
  refine ⟨rfl, ?_, ?_, ?_, ?_⟩
  · unfold requiredToPay STRIPE_MINIMUM_USD
    exact le_trans (by norm_num) (le_max_left _ _)
  · unfold requiredToPay STRIPE_MINIMUM_USD EPSILON
    rw [max_eq_right (by norm_num)]
    norm_num
  · unfold requiredToPay STRIPE_MINIMUM_USD EPSILON
    rw [max_eq_right (by norm_num)]
    norm_num
  · unfold requiredToPay STRIPE_MINIMUM_USD EPSILON
    rw [max_eq_left (by norm_num)]

/-- Claim C6 witness: the theorem applied at bidder total 0 and throne
amount 10. -/
theorem c6_witness :
    (0:ℚ) ≤ 0 ∧ (0:ℚ) ≤ 10 ∧ requiredToPay 0 10 = 1001/100 :=
  ⟨le_refl 0, by norm_num, (c6_quote_formula 0 10 (le_refl 0) (by norm_num)).2.2.1⟩

/-! Claim C7. -/

/-- Claim C7: on a coronation that dethrones a different previous holder,
the previous holder user document gets totalTimeAsKing increased by
exactly now - crownedAt and longestReign set to the maximum of its old
value and that duration; when the previous holder is the paying bidder
itself, or no throne exists, no reign statistic of any user changes. -/
theorem c7_dethroned_stats
    (now : Int) (pid : String) (md : PaymentMetadata) (s s' : Store)
    (hok : settleTransaction now pid md s = .ok s') (hwill : md.willBecomeKing = true) :
    (∀ pk pkU t0, s.king = some pk → pk.userId ≠ "" → pk.userId ≠ md.userId →
        pk.crownedAt = some t0 → lookupDoc s.users pk.userId = some pkU →
        lookupDoc s'.users pk.userId = some
          { pkU with totalTimeAsKing := pkU.totalTimeAsKing + (now - t0)
                     longestReign := max pkU.longestReign (now - t0) })
    ∧ (∀ pk, s.king = some pk → pk.userId = md.userId →
        ∀ k, (lookupDoc s'.users k).map (fun v => (v.totalTimeAsKing, v.longestReign)) =
          (lookupDoc s.users k).map (fun v => (v.totalTimeAsKing, v.longestReign)))
    ∧ (s.king = none →
        ∀ k, (lookupDoc s'.users k).map (fun v => (v.totalTimeAsKing, v.longestReign)) =
          (lookupDoc s.users k).map (fun v => (v.totalTimeAsKing, v.longestReign))) := by
  obtain ⟨u0, hu0, rfl⟩ := (settleTransaction_ok_iff _ _ _ _ _).mp hok
  refine ⟨?_, ?_, ?_⟩
  · intro pk pkU t0 hk h1 h2 hcr hl
    have hpk := prevKingInfo_of md s pk pkU hk h1 h2 hl
    have hres := settleBody_prevKing_user now pid md s u0 pk pkU hpk hwill
    rw [hcr] at hres
    simpa using hres
  · intro pk hk hkeq k
    apply settleBody_reignStats_other
    intro pk' pkU' hpk'
    obtain ⟨h1', _, h3', _⟩ := prevKingInfo_eq_some md s pk' pkU' hpk'
    rw [hk] at h1'
    injection h1' with h5
    subst h5
    exact absurd hkeq h3'
  · intro hk k
    apply settleBody_reignStats_other
    intro pk' pkU' hpk'
    have h1' := (prevKingInfo_eq_some md s pk' pkU' hpk').1
    rw [hk] at h1'
    exact absurd h1' (by simp)

/-- Claim C7 witness: the theorem applied at the concrete C7 fixture:
previous holder p, crowned at 40 with totalTimeAsKing 5 and longestReign
50, dethroned at 100, ends with totalTimeAsKing 65 and longestReign 60. -/
theorem c7_witness :
    settleTransaction 100 "pi_7" c7Md c7Store = .ok c7Result
    ∧ lookupDoc c7Result.users "p" = some
        { username := "P", totalInvested := 50, lastPaymentAmount := none,
          lastPaymentDate := none, timesAsKing := 0, totalTimeAsKing := 65,
          longestReign := 60 } := by
  refine ⟨rfl, ?_⟩
  have h := (c7_dethroned_stats 100 "pi_7" c7Md c7Store c7Result rfl rfl).1
    (mkKing "p" "P" 50 (some 40))
    { (baseUser "P" 50) with totalTimeAsKing := 5, longestReign := 50 }
    40 rfl (by decide) (by decide) rfl (by decide)
  simp only [mkKing] at h
  rw [h]
  decide

/-! Claim C8. -/

/-- Claim C8 counterexample: with no Throne document and an event whose
new total 5 is strictly positive, the webhook.js settlement does NOT
crown the bidder: the decision compares against the ReyInicial default
amount 10.00, not against 0, and the throne stays absent. -/
theorem c8_counterexample :
    webhookSettle 9 "pi_8" c8Md c8WStore = .ok c8Result
    ∧ c8WStore.king = none
    ∧ c8Md.newTotalInvestment > 0
    ∧ c8Result.king = none :=
  ⟨rfl, rfl, by norm_num [c8Md], by decide⟩

/-- Claim C8 (amended): when the Throne document is absent, the
webhook.js settlement treats the situation as the holder ReyInicial with
amount = 10.00 and decides coronation against 10.00; only the Bid
Quoter treats an absent throne as a holder with amount 0 (its Nadie
default), which changes nothing relative to passing that default
explicitly. -/
theorem c8_bootstrap_behaviour
    (now : Int) (pid : String) (wmd : WMetadata) (t t' : WStore)
    (hk : t.king = none) (hok : webhookSettle now pid wmd t = .ok t') :
    wThroneAmount t = 10
    ∧ (wmd.newTotalInvestment > 10 →
        t'.king = some { userId := wmd.userId, username := wmd.username,
                         amount := wmd.newTotalInvestment, timestamp := some now,
                         crownedAt := some now, paymentIntentId := some pid })
    ∧ (¬ wmd.newTotalInvestment > 10 → t'.king = t.king)
    ∧ nadieKingData.amount = 0
    ∧ (∀ amount idToken userId userDoc,
        createPaymentIntentHandler amount idToken userId userDoc none =
          createPaymentIntentHandler amount idToken userId userDoc (some nadieKingData)) := by
  obtain ⟨u0, hu0, rfl⟩ := (webhookSettle_ok_iff _ _ _ _ _).mp hok
  have hta : wThroneAmount t = 10 := by
    rw [wThroneAmount, hk]
    rfl
  refine ⟨hta, ?_, ?_, rfl, ?_⟩
  · intro hgt
    rw [wSettleBody_king, if_pos (by rw [hta]; exact hgt)]
  · intro hgt
    rw [wSettleBody_king, if_neg (by rw [hta]; exact hgt)]
  · intro amount idToken userId userDoc
    rfl

/-- Claim C8 witness: the amended theorem applied at the concrete C8
fixtures; with the throne absent, a new total of 11 exceeds the default
10.00 and is crowned. -/
theorem c8_witness :
    webhookSettle 9 "pi_8b" c8MdHigh c8WStore = .ok c8ResultHigh
    ∧ c8ResultHigh.king = some
        { userId := "b", username := "B", amount := 11, timestamp := some 9,
          crownedAt := some 9, paymentIntentId := some "pi_8b" } := by
  refine ⟨rfl, ?_⟩
  exact (c8_bootstrap_behaviour 9 "pi_8b" c8MdHigh c8WStore c8ResultHigh rfl rfl).2.1
    (by norm_num [c8MdHigh])

/-! Claim C9. -/

/-- Claim C9 counterexample: a request with a missing amount is rejected
with the missing-fields message, whose communicated amount is none, even
though the computed requiredToPay for the fetched user (total 0) and
throne (amount 10) is 10.01; the rejection does not communicate
requiredPayment. -/
theorem c9_counterexample :
    createPaymentIntentHandler none (some "tok") "u1" (some c9User) (some c9King) =
      .missingFields
    ∧ QuoteResult.communicatedAmount QuoteResult.missingFields = none
    ∧ requiredToPay 0 10 = 1001/100
    ∧ (none : Option ℚ) ≠ some (1001/100) := by
  refine ⟨rfl, rfl, ?_, by simp⟩
  unfold requiredToPay STRIPE_MINIMUM_USD EPSILON
  rw [max_eq_right (by norm_num)]
  norm_num

/-- Claim C9 (amended): the quoter rejects missing or zero amounts with a
message carrying no amount, rejects amounts below the 0.50 processor
minimum with a message carrying only the fixed minimum, and only the
below-requiredPayment rejection communicates the computed
requiredToPay. -/
theorem c9_rejection_messages
    (amount : Option ℚ) (idToken : Option String) (userId : String)
    (userDoc : Option QuoteUser) (kingDoc : Option KingData) :
    (amount.getD 0 = 0 ∨ idToken.getD "" = "" →
      createPaymentIntentHandler amount idToken userId userDoc kingDoc = .missingFields
      ∧ QuoteResult.communicatedAmount
          (createPaymentIntentHandler amount idToken userId userDoc kingDoc) = none)
    ∧ (¬ (amount.getD 0 = 0 ∨ idToken.getD "" = "") →
      amount.getD 0 < STRIPE_MINIMUM_USD →
      createPaymentIntentHandler amount idToken userId userDoc kingDoc =
        .belowMinimum STRIPE_MINIMUM_USD
      ∧ QuoteResult.communicatedAmount
          (createPaymentIntentHandler amount idToken userId userDoc kingDoc) =
        some STRIPE_MINIMUM_USD)
    ∧ (∀ u, ¬ (amount.getD 0 = 0 ∨ idToken.getD "" = "") →
      ¬ amount.getD 0 < STRIPE_MINIMUM_USD → userDoc = some u →
      amount.getD 0 <
        requiredToPay (u.totalInvested.getD 0) ((kingDoc.getD nadieKingData).amount) →
      createPaymentIntentHandler amount idToken userId userDoc kingDoc =
        .belowRequired
          (requiredToPay (u.totalInvested.getD 0) ((kingDoc.getD nadieKingData).amount))
      ∧ QuoteResult.communicatedAmount
          (createPaymentIntentHandler amount idToken userId userDoc kingDoc) =
        some (requiredToPay (u.totalInvested.getD 0)
          ((kingDoc.getD nadieKingData).amount))) := by
  refine ⟨?_, ?_, ?_⟩
  · intro hc
    have hres : createPaymentIntentHandler amount idToken userId userDoc kingDoc =
        .missingFields := by
      unfold createPaymentIntentHandler
      rw [if_pos hc]
    exact ⟨hres, by rw [hres]; rfl⟩
  · intro hc hmin
    have hres : createPaymentIntentHandler amount idToken userId userDoc kingDoc =
        .belowMinimum STRIPE_MINIMUM_USD := by
      unfold createPaymentIntentHandler
      rw [if_neg hc, if_pos hmin]
    exact ⟨hres, by rw [hres]; rfl⟩
  · intro u hc hmin hu hreq
    subst hu
    have hres : createPaymentIntentHandler amount idToken userId (some u) kingDoc =
        .belowRequired
          (requiredToPay (u.totalInvested.getD 0) ((kingDoc.getD nadieKingData).amount)) := by
      simp only [createPaymentIntentHandler]
      rw [if_neg hc, if_neg hmin, if_pos hreq]
    exact ⟨hres, by rw [hres]; rfl⟩

/-- Claim C9 witness: the amended theorem applied at a concrete rejected
request for each rejection kind. -/
theorem c9_witness :
    (createPaymentIntentHandler none (some "tok") "u1" (some c9User) (some c9King) =
        .missingFields
      ∧ QuoteResult.communicatedAmount
          (createPaymentIntentHandler none (some "tok") "u1" (some c9User) (some c9King)) =
        none)
    ∧ (createPaymentIntentHandler (some (-3)) (some "tok") "u1" (some c9User) (some c9King) =
        .belowMinimum STRIPE_MINIMUM_USD
      ∧ QuoteResult.communicatedAmount
          (createPaymentIntentHandler (some (-3)) (some "tok") "u1" (some c9User)
            (some c9King)) =
        some STRIPE_MINIMUM_USD) := by
  constructor
  · exact (c9_rejection_messages none (some "tok") "u1" (some c9User) (some c9King)).1
      (by simp)
  · exact (c9_rejection_messages (some (-3)) (some "tok") "u1" (some c9User)
      (some c9King)).2.1 (by simp) (by norm_num [STRIPE_MINIMUM_USD])

/-! Claim C10. -/

/-- Claim C10: every payment request the quoter accepts carries the
prediction willBecomeKing = true: an accepted amount is at least
requiredToPay, so the predicted new total exceeds the quoted throne
amount by at least EPSILON and in particular strictly. -/
theorem c10_accepted_predicts_victory
    (amount : Option ℚ) (idToken : Option String) (userId : String)
    (userDoc : Option QuoteUser) (kingDoc : Option KingData) (md : PaymentMetadata)
    (h : createPaymentIntentHandler amount idToken userId userDoc kingDoc =
      .accepted md) :
    md.willBecomeKing = true := by
  by_cases h1 : amount.getD 0 = 0 ∨ idToken.getD "" = ""
  · have hres : createPaymentIntentHandler amount idToken userId userDoc kingDoc =
        .missingFields := by
      unfold createPaymentIntentHandler
      rw [if_pos h1]
    rw [hres] at h
    exact absurd h (by simp)
  · by_cases h2 : amount.getD 0 < STRIPE_MINIMUM_USD
    · have hres : createPaymentIntentHandler amount idToken userId userDoc kingDoc =
          .belowMinimum STRIPE_MINIMUM_USD := by
        unfold createPaymentIntentHandler
        rw [if_neg h1, if_pos h2]
      rw [hres] at h
      exact absurd h (by simp)
    · cases hud : userDoc with
      | none =>
        rw [hud] at h
        have hres : createPaymentIntentHandler amount idToken userId none kingDoc =
            .userNotFound := by
          simp only [createPaymentIntentHandler]
          rw [if_neg h1, if_neg h2]
        rw [hres] at h
        exact absurd h (by simp)
      | some u =>
        rw [hud] at h
        by_cases h3 : amount.getD 0 <
            requiredToPay (u.totalInvested.getD 0) ((kingDoc.getD nadieKingData).amount)
        · have hres : createPaymentIntentHandler amount idToken userId (some u) kingDoc =
              .belowRequired (requiredToPay (u.totalInvested.getD 0)
                ((kingDoc.getD nadieKingData).amount)) := by
            simp only [createPaymentIntentHandler]
            rw [if_neg h1, if_neg h2, if_pos h3]
          rw [hres] at h
          exact absurd h (by simp)
        · have hres : createPaymentIntentHandler amount idToken userId (some u) kingDoc =
              .accepted
                { userId := userId
                  username := u.username
                  amountPaid := amount.getD 0
                  previousInvestment := u.totalInvested.getD 0
                  newTotalInvestment := u.totalInvested.getD 0 + amount.getD 0
                  willBecomeKing :=
                    decide (u.totalInvested.getD 0 + amount.getD 0 >
                      (kingDoc.getD nadieKingData).amount)
                  currentKingAmount := (kingDoc.getD nadieKingData).amount } := by
            simp only [createPaymentIntentHandler]
            rw [if_neg h1, if_neg h2, if_neg h3]
          rw [hres] at h
          injection h with hmd
          rw [← hmd]
          show decide (u.totalInvested.getD 0 + amount.getD 0 >
            (kingDoc.getD nadieKingData).amount) = true
          rw [decide_eq_true_eq]
          have hreq : requiredToPay (u.totalInvested.getD 0)
              ((kingDoc.getD nadieKingData).amount) ≤ amount.getD 0 := le_of_not_lt h3
          have hup : (kingDoc.getD nadieKingData).amount + EPSILON - u.totalInvested.getD 0 ≤
              requiredToPay (u.totalInvested.getD 0) ((kingDoc.getD nadieKingData).amount) :=
            le_max_right _ _
          have he : (0:ℚ) < EPSILON := by norm_num [EPSILON]
          linarith

/-- Claim C10 witness: the theorem applied at a concrete accepted
request: amount 11 against bidder total 0 and throne amount 10. -/
theorem c10_witness :
    createPaymentIntentHandler (some 11) (some "tok") "u1" (some c9User) (some c9King) =
      .accepted c10Md
    ∧ c10Md.willBecomeKing = true := by
  have hres : createPaymentIntentHandler (some 11) (some "tok") "u1" (some c9User)
      (some c9King) = .accepted c10Md := by
    have hreq : requiredToPay (c9User.totalInvested.getD 0)
        (((some c9King).getD nadieKingData).amount) = 1001/100 := by
      simp only [c9User, c9King, mkKing, Option.getD_some]
      unfold requiredToPay STRIPE_MINIMUM_USD EPSILON
      rw [max_eq_right (by norm_num)]
      norm_num
    simp only [createPaymentIntentHandler]
    rw [if_neg (by decide), if_neg (by norm_num [STRIPE_MINIMUM_USD]),
      if_neg (by rw [hreq]; norm_num)]
    norm_num [c9User, c9King, mkKing, c10Md, QuoteResult.accepted.injEq,
      PaymentMetadata.mk.injEq]
  exact ⟨hres,
    c10_accepted_predicts_victory (some 11) (some "tok") "u1" (some c9User)
      (some c9King) c10Md hres⟩
